import Mathlib

/-!
# Verification of the mcp-toolbox protocol/runtime core

A shallow embedding, in Lean, of the parts of the `mcp-toolbox-py`
repository that the specification's claims are about:

* the parameter type system (`tools/parameters.py`): `Parameter`,
  `_get_default_value`, `validate`, `_validate_type`, `_validate_constraints`;
* the toolset router (`tools/toolsets.py`): `Toolset`;
* the protocol engine (`server/mcp/protocol.py`): `McpRequest`, `McpResponse`,
  `McpServer` with `handle_request`, `_process_request`, `_handle_initialize`,
  `_handle_list_tools`, `_handle_call_tool`;
* the HTTP POST transport (`server/http_server.py`): `HttpMcpServer.handle_mcp_request`
  and the SSE session mirror;
* the invocation middleware (`server/server.py`): `ToolboxServer.attach_pre_hook`.

Python dynamic values are embedded as the inductive type `PyVal`; a raised
Python exception is embedded as the `.error` branch of `Except PyErr`.
Definitions follow the source line by line; comments note the few places
where an external collaborator (the JSON parser of the standard library, a
backend's invoke, the metadata lookup) is abstracted into a parameter.
-/

namespace McpToolbox

/-- Embedding of the Python runtime values that flow through the toolbox
core: `None`, booleans, integers, floats (modelled exactly as rational
numbers; only `is_integer`, truthiness and zero-tests are exercised),
strings, lists, and string-keyed dicts (all dicts in the core are built
from JSON texts or literals with string keys, kept in insertion order). -/
inductive PyVal where
  | none
  | bool (b : Bool)
  | int (n : Int)
  | float (q : ℚ)
  | str (s : String)
  | list (xs : List PyVal)
  | dict (kvs : List (String × PyVal))
deriving Repr

/-- Embedding of a raised Python exception, carrying the constructor
argument (the text `str(e)` is recovered by `PyErr.msg`). -/
inductive PyErr where
  | valueError (m : String)
  | typeError (m : String)
  | keyError (k : String)
  | indexError (m : String)
  | attributeError (m : String)
deriving Repr, DecidableEq

/-- Python `str(e)` for an exception `e`; for `KeyError` this is the
`repr` of the missing key. -/
def PyErr.msg : PyErr → String
  | .valueError m => m
  | .typeError m => m
  | .keyError k => "\x27" ++ k ++ "\x27"
  | .indexError m => m
  | .attributeError m => m

/-- Python truthiness (`bool(v)`) of an embedded value. -/
def pyTruthy : PyVal → Bool
  | .none => false
  | .bool b => b
  | .int n => decide (n ≠ 0)
  | .float q => decide (q ≠ 0)
  | .str s => decide (s ≠ "")
  | .list xs => !xs.isEmpty
  | .dict kvs => !kvs.isEmpty

/-- `True` is the `None` object: the Python `is None` test. -/
def PyVal.isNone : PyVal → Bool
  | .none => true
  | _ => false

/-- The numeric reading of a value, when Python treats it as a number
(`bool` is a subclass of `int`, which widens to `float`). -/
def pyNum? : PyVal → Option ℚ
  | .bool b => Option.some (cond b 1 0)
  | .int n => Option.some (n : ℚ)
  | .float q => Option.some q
  | _ => Option.none

mutual

/-- Python `==` on embedded values: numeric values compare across
`bool`/`int`/`float`; strings, lists compare structurally; dicts compare
as key-value maps (order-insensitive). -/
def pyEq (a b : PyVal) : Bool :=
  match pyNum? a, pyNum? b with
  | Option.some x, Option.some y => decide (x = y)
  | _, _ =>
    match a, b with
    | .none, .none => true
    | .str s, .str t => s == t
    | .list xs, .list ys => pyEqList xs ys
    | .dict xs, .dict ys => xs.length == ys.length && pyEqDictSub xs ys
    | _, _ => false

def pyEqList : List PyVal → List PyVal → Bool
  | [], [] => true
  | x :: xs, y :: ys => pyEq x y && pyEqList xs ys
  | _, _ => false

def pyEqDictSub : List (String × PyVal) → List (String × PyVal) → Bool
  | [], _ => true
  | (k, v) :: rest, ys =>
    (match ys.lookup k with
     | Option.some w => pyEq v w
     | Option.none => false) && pyEqDictSub rest ys

end

mutual

/-- Python `repr` of a value (used by `str()` on containers). String
escaping inside reprs and the decimal rendering of non-integral floats are
approximated (no claim depends on them). -/
def pyRepr : PyVal → String
  | .none => "None"
  | .bool true => "True"
  | .bool false => "False"
  | .int n => toString n
  | .float q => if q.den = 1 then toString q.num ++ ".0" else toString q.num ++ "/" ++ toString q.den
  | .str s => "\x27" ++ s ++ "\x27"
  | .list xs => "[" ++ pyReprList xs ++ "]"
  | .dict kvs => "\x7b" ++ pyReprKVs kvs ++ "\x7d"

def pyReprList : List PyVal → String
  | [] => ""
  | [x] => pyRepr x
  | x :: xs => pyRepr x ++ ", " ++ pyReprList xs

def pyReprKVs : List (String × PyVal) → String
  | [] => ""
  | [(k, v)] => "\x27" ++ k ++ "\x27: " ++ pyRepr v
  | (k, v) :: kvs => "\x27" ++ k ++ "\x27: " ++ pyRepr v ++ ", " ++ pyReprKVs kvs

end

/-- Python `str(v)`: the string itself for strings, `repr` otherwise. -/
def pyStr : PyVal → String
  | .str s => s
  | v => pyRepr v

/-- Python `value.lower()`, for the ASCII strings the boolean coercion
table compares against. -/
def pyLower (s : String) : String :=
  ⟨s.data.map Char.toLower⟩

/-- JSON string escaping as in `json.dumps` (the `\\uXXXX` escapes of
other control and non-ASCII characters are approximated by the raw
character; no claim depends on them). -/
def jsonEscapeChar (c : Char) : String :=
  if c = '"' then "\\\""
  else if c = '\\' then "\\\\"
  else if c = '\n' then "\\n"
  else if c = '\t' then "\\t"
  else if c = '\r' then "\\r"
  else String.singleton c

def jsonEscape (s : String) : String :=
  String.join (s.toList.map jsonEscapeChar)

mutual

/-- `json.dumps` with the default separators, as used for responses
(`json.dumps(response.__dict__)`) and for tool results
(`json.dumps(results, default=str)`). -/
def pyJsonDumps : PyVal → String
  | .none => "null"
  | .bool true => "true"
  | .bool false => "false"
  | .int n => toString n
  | .float q => if q.den = 1 then toString q.num ++ ".0" else toString q.num ++ "/" ++ toString q.den
  | .str s => "\"" ++ jsonEscape s ++ "\""
  | .list xs => "[" ++ pyJsonDumpsList xs ++ "]"
  | .dict kvs => "\x7b" ++ pyJsonDumpsKVs kvs ++ "\x7d"

def pyJsonDumpsList : List PyVal → String
  | [] => ""
  | [x] => pyJsonDumps x
  | x :: xs => pyJsonDumps x ++ ", " ++ pyJsonDumpsList xs

def pyJsonDumpsKVs : List (String × PyVal) → String
  | [] => ""
  | [(k, v)] => "\"" ++ jsonEscape k ++ "\": " ++ pyJsonDumps v
  | (k, v) :: kvs => "\"" ++ jsonEscape k ++ "\": " ++ pyJsonDumps v ++ ", " ++ pyJsonDumpsKVs kvs

end

/-- The ASCII whitespace stripped by Python `int(str)`. -/
def isPySpace (c : Char) : Bool :=
  c = ' ' || c = '\t' || c = '\n' || c = '\x0d' || c = '\x0b' || c = '\x0c'

def isPyDigit (c : Char) : Bool :=
  '0' ≤ c && c ≤ '9'

/-- A digit run as accepted by Python `int`: at least one digit, single
underscores allowed between digits only. -/
def pyDigitRunOk : List Char → Bool
  | [] => true
  | '_' :: c :: rest => isPyDigit c && pyDigitRunOk rest
  | c :: rest => isPyDigit c && pyDigitRunOk rest

def pyDigitsOk : List Char → Bool
  | [] => false
  | c :: rest => isPyDigit c && pyDigitRunOk rest

def pyDigitsVal (cs : List Char) : Nat :=
  cs.foldl (fun acc c => if c = '_' then acc else acc * 10 + (c.toNat - '0'.toNat)) 0

/-- Python `int(s)` on a string: optional surrounding ASCII whitespace, an
optional sign, then digits (with legal underscores); `Option.none` embeds the
raised `ValueError`. Non-ASCII digits are out of the model. -/
def pyIntParse (s : String) : Option Int :=
  let cs := ((s.toList.dropWhile isPySpace).reverse.dropWhile isPySpace).reverse
  match cs with
  | '+' :: rest => if pyDigitsOk rest then Option.some (Int.ofNat (pyDigitsVal rest)) else Option.none
  | '-' :: rest => if pyDigitsOk rest then Option.some (-(Int.ofNat (pyDigitsVal rest))) else Option.none
  | rest => if pyDigitsOk rest then Option.some (Int.ofNat (pyDigitsVal rest)) else Option.none

/-- Replace the value bound to `key` in an association list (Python
`d[key] = v` on an existing key keeps the insertion position). -/
def updateAssoc {α : Type} (kvs : List (String × α)) (key : String) (v : α) :
    List (String × α) :=
  kvs.map (fun kv => if kv.1 = key then (kv.1, v) else kv)

/-! ## Parameter model (`tools/parameters.py`) -/

/-- The `ParameterType` enum of supported parameter types. -/
inductive ParameterType where
  | string
  | integer
  | number
  | boolean
  | array
  | object
  | map
deriving Repr, DecidableEq

/-- The rendering of a `ParameterType` member inside a Python f-string
(`str` of an `Enum` member). -/
def parameterTypeStr : ParameterType → String
  | .string => "ParameterType.STRING"
  | .integer => "ParameterType.INTEGER"
  | .number => "ParameterType.NUMBER"
  | .boolean => "ParameterType.BOOLEAN"
  | .array => "ParameterType.ARRAY"
  | .object => "ParameterType.OBJECT"
  | .map => "ParameterType.MAP"

/-- The `Parameter` dataclass. `type` and `value_type` are already
`ParameterType` members (the `__post_init__` string-to-enum coercion is a
config-parsing step); numeric bounds are modelled as rationals, the shape
Python compares them in. The structure is recursive through `items`
(array element schema), so the dataclass's field defaults are provided by
`Parameter.basic` below instead of structure defaults. -/
structure Parameter where
  name : String
  type : ParameterType
  description : String
  required : Bool
  default : PyVal
  enum : Option (List PyVal)
  minimum : Option ℚ
  maximum : Option ℚ
  min_length : Option Int
  max_length : Option Int
  pattern : Option String
  items : Option Parameter
  value_type : Option ParameterType

/-- A `Parameter(name, type, description)` call with every optional
dataclass field left at its default. -/
def Parameter.basic (name : String) (type : ParameterType) : Parameter :=
  { name := name, type := type, description := "", required := true,
    default := PyVal.none, enum := Option.none,
    minimum := Option.none, maximum := Option.none,
    min_length := Option.none, max_length := Option.none,
    pattern := Option.none, items := Option.none, value_type := Option.none }

/-- `Parameter._get_default_value`: the `defaults` dict of the source lists
`STRING`, `INTEGER`, `NUMBER`, `BOOLEAN`, `ARRAY` and `OBJECT` but has no
entry for `MAP`, so `defaults.get(self.type)` yields `None` there. -/
def getDefaultValue : ParameterType → PyVal
  | .string => .str ""
  | .integer => .int 0
  | .number => .float 0
  | .boolean => .bool false
  | .array => .list []
  | .object => .dict []
  | .map => .none

/-- `Parameter.__post_init__` (after the string-to-enum coercions): a
non-required parameter whose default `is None` gets
`_get_default_value()` as its default. -/
def Parameter.postInit (p : Parameter) : Parameter :=
  if !p.required && p.default.isNone then
    { p with default := getDefaultValue p.type }
  else p

/-- Python `re.match(pattern, value)` anchored-at-start matching, modelled
for literal (metacharacter-free) patterns as a prefix test. No claim
exercises regex patterns. -/
def reMatch (pattern value : String) : Bool :=
  pattern.isPrefixOf value

/-- `Parameter._validate_constraints`, run after type coercion, in source
order: enum membership (Python `in`, i.e. `==` against each member), then
numeric bounds for `integer`/`number`, then length/pattern for `string`,
then length for `array`; the first failure raises. The `len()` calls on a
value of the wrong runtime shape (unreachable after coercion) are embedded
as a `TypeError`. -/
def Parameter.validateConstraints (p : Parameter) (v : PyVal) : Except PyErr Unit := do
  match p.enum with
  | Option.some es =>
    if es.any (fun e => pyEq v e) then pure ()
    else throw (.valueError ("Parameter \x27" ++ p.name ++ "\x27 must be one of " ++
      pyRepr (.list es) ++ ", got " ++ pyStr v))
  | Option.none => pure ()
  if p.type = .integer ∨ p.type = .number then
    match p.minimum with
    | Option.some m =>
      match pyNum? v with
      | Option.some x =>
        if x < m then
          throw (.valueError ("Parameter \x27" ++ p.name ++ "\x27 must be >= " ++
            toString m.num ++ ", got " ++ pyStr v))
        else pure ()
      | Option.none => throw (.typeError "unsupported operand comparison")
    | Option.none => pure ()
    match p.maximum with
    | Option.some m =>
      match pyNum? v with
      | Option.some x =>
        if m < x then
          throw (.valueError ("Parameter \x27" ++ p.name ++ "\x27 must be <= " ++
            toString m.num ++ ", got " ++ pyStr v))
        else pure ()
      | Option.none => throw (.typeError "unsupported operand comparison")
    | Option.none => pure ()
  if p.type = .string then
    match v with
    | .str s =>
      match p.min_length with
      | Option.some m =>
        if (s.length : Int) < m then
          throw (.valueError ("Parameter \x27" ++ p.name ++ "\x27 must be at least " ++
            toString m ++ " characters"))
        else pure ()
      | Option.none => pure ()
      match p.max_length with
      | Option.some m =>
        if m < (s.length : Int) then
          throw (.valueError ("Parameter \x27" ++ p.name ++ "\x27 must be at most " ++
            toString m ++ " characters"))
        else pure ()
      | Option.none => pure ()
      match p.pattern with
      | Option.some pat =>
        if reMatch pat s then pure ()
        else throw (.valueError ("Parameter \x27" ++ p.name ++ "\x27 does not match pattern " ++ pat))
      | Option.none => pure ()
    | _ => throw (.typeError "object has no len()")
  if p.type = .array then
    match v with
    | .list xs =>
      match p.min_length with
      | Option.some m =>
        if (xs.length : Int) < m then
          throw (.valueError ("Parameter \x27" ++ p.name ++ "\x27 must have at least " ++
            toString m ++ " items"))
        else pure ()
      | Option.none => pure ()
      match p.max_length with
      | Option.some m =>
        if m < (xs.length : Int) then
          throw (.valueError ("Parameter \x27" ++ p.name ++ "\x27 must have at most " ++
            toString m ++ " items"))
        else pure ()
      | Option.none => pure ()
    | _ => throw (.typeError "object has no len()")

/-- Python `float(s)` on a string, modelled for plain decimal literals
(optional surrounding whitespace, optional sign, digits with an optional
single decimal point); exponents, `inf`/`nan` and underscores are out of
the model — no claim exercises number-string parsing. -/
def pyFloatCore (cs : List Char) : Option ℚ :=
  let intPart := cs.takeWhile (fun c => c ≠ '.')
  let rest := cs.drop intPart.length
  match rest with
  | [] =>
    if intPart ≠ [] && intPart.all isPyDigit then
      Option.some ((pyDigitsVal intPart : ℚ))
    else Option.none
  | '.' :: fracPart =>
    if (intPart ≠ [] || fracPart ≠ []) && intPart.all isPyDigit && fracPart.all isPyDigit then
      Option.some ((pyDigitsVal intPart : ℚ) + (pyDigitsVal fracPart : ℚ) / ((10 : ℚ) ^ fracPart.length))
    else Option.none
  | _ => Option.none

def pyFloatParse (s : String) : Option ℚ :=
  let cs := ((s.toList.dropWhile isPySpace).reverse.dropWhile isPySpace).reverse
  match cs with
  | '+' :: rest => pyFloatCore rest
  | '-' :: rest => (pyFloatCore rest).map (fun q => -q)
  | rest => pyFloatCore rest

mutual

/-- `Parameter.validate`: `None` resolves to the default when not
required (raising when required); any other value goes through
`_validate_type` and then `_validate_constraints`. -/
def Parameter.validate (p : Parameter) (v : PyVal) : Except PyErr PyVal :=
  match v with
  | .none =>
    if p.required then .error (.valueError ("Parameter \x27" ++ p.name ++ "\x27 is required"))
    else .ok p.default
  | v =>
    match p.validateType v with
    | .error e => .error e
    | .ok tv =>
      match p.validateConstraints tv with
      | .error e => .error e
      | .ok _ => .ok tv

/-- `Parameter._validate_type`: per-type coercion, mirroring the source
branch for branch. Dict keys are strings by construction of `PyVal`, so
the map branch's string-key check never fires. -/
def Parameter.validateType (p : Parameter) (v : PyVal) : Except PyErr PyVal :=
  match p.type with
  | .string =>
    match v with
    | .str s => .ok (.str s)
    | v => .ok (.str (pyStr v))
  | .integer =>
    match v with
    | .bool _ => .error (.valueError ("Parameter \x27" ++ p.name ++ "\x27 must be an integer, got boolean"))
    | .str s =>
      match pyIntParse s with
      | Option.some n => .ok (.int n)
      | Option.none =>
        .error (.valueError ("Parameter \x27" ++ p.name ++ "\x27 must be an integer, got \x27" ++ s ++ "\x27"))
    | .float q =>
      if q.den = 1 then .ok (.int q.num)
      else .error (.valueError ("Parameter \x27" ++ p.name ++ "\x27 must be an integer, got float " ++ pyStr (.float q)))
    | .int n => .ok (.int n)
    | _ => .error (.valueError ("Parameter \x27" ++ p.name ++ "\x27 must be an integer"))
  | .number =>
    match v with
    | .bool _ => .error (.valueError ("Parameter \x27" ++ p.name ++ "\x27 must be a number, got boolean"))
    | .str s =>
      match pyFloatParse s with
      | Option.some q => .ok (.float q)
      | Option.none =>
        .error (.valueError ("Parameter \x27" ++ p.name ++ "\x27 must be a number, got \x27" ++ s ++ "\x27"))
    | .int n => .ok (.float (n : ℚ))
    | .float q => .ok (.float q)
    | _ => .error (.valueError ("Parameter \x27" ++ p.name ++ "\x27 must be a number"))
  | .boolean =>
    match v with
    | .bool b => .ok (.bool b)
    | .str s =>
      let lower := pyLower s
      if lower = "true" ∨ lower = "1" ∨ lower = "yes" ∨ lower = "on" then .ok (.bool true)
      else if lower = "false" ∨ lower = "0" ∨ lower = "no" ∨ lower = "off" then .ok (.bool false)
      else .error (.valueError ("Parameter \x27" ++ p.name ++ "\x27 must be a boolean, got \x27" ++ s ++ "\x27"))
    | .int n => .ok (.bool (decide (n ≠ 0)))
    | .float q => .ok (.bool (decide (q ≠ 0)))
    | _ => .error (.valueError ("Parameter \x27" ++ p.name ++ "\x27 must be a boolean"))
  | .array =>
    match v with
    | .list xs =>
      match p.items with
      | Option.some it =>
        match validateElems it xs with
        | .ok ys => .ok (.list ys)
        | .error e => .error e
      | Option.none => .ok (.list xs)
    | _ => .error (.valueError ("Parameter \x27" ++ p.name ++ "\x27 must be an array"))
  | .map =>
    match v with
    | .dict kvs =>
      match p.value_type with
      | Option.none => .ok (.dict kvs)
      | Option.some vt =>
        if vt = .string ∨ vt = .integer ∨ vt = .number ∨ vt = .boolean then
          let valueParam : Parameter :=
            { Parameter.basic (p.name ++ "_value") vt with
              description := "Value for map \x27" ++ p.name ++ "\x27", required := true }
          match validateMapVals valueParam kvs with
          | .ok ws => .ok (.dict ws)
          | .error e => .error e
        else
          .error (.valueError ("Parameter \x27" ++ p.name ++ "\x27 has unsupported valueType \x27" ++
            parameterTypeStr vt ++ "\x27"))
    | _ => .error (.valueError ("Parameter \x27" ++ p.name ++ "\x27 must be a map/object"))
  | .object =>
    match v with
    | .dict kvs => .ok (.dict kvs)
    | _ => .error (.valueError ("Parameter \x27" ++ p.name ++ "\x27 must be an object"))

/-- The list comprehension `[self.items.validate(v) for v in value]`
of the array branch; a failing element raises out of the comprehension. -/
def validateElems (it : Parameter) : List PyVal → Except PyErr (List PyVal)
  | [] => .ok []
  | x :: xs =>
    match it.validate x with
    | .error e => .error e
    | .ok y =>
      match validateElems it xs with
      | .ok ys => .ok (y :: ys)
      | .error e => .error e

/-- The `for k, v in value.items()` loop of the map branch, validating
each value against the synthesized scalar parameter. -/
def validateMapVals (vp : Parameter) : List (String × PyVal) → Except PyErr (List (String × PyVal))
  | [] => .ok []
  | (k, x) :: kvs =>
    match vp.validate x with
    | .error e => .error e
    | .ok y =>
      match validateMapVals vp kvs with
      | .ok ws => .ok ((k, y) :: ws)
      | .error e => .error e

end

/-! ## Toolsets (`tools/toolsets.py`) and the protocol engine
(`server/mcp/protocol.py`) -/

/-- A tool as the protocol engine sees it (the `Tool` ABC is an external
collaborator): its MCP manifest and its `invoke` coroutine, modelled as a
function from the arguments value to a result or a raised exception. -/
structure PyTool where
  manifest : PyVal
  invoke : PyVal → Except PyErr PyVal

/-- The `Toolset` class: a name and a tool dict (insertion-ordered). -/
structure Toolset where
  name : String
  tools : List (String × PyTool)
  description : Option String

/-- `Toolset.get_tool` (a `dict.get`, so the key must be a string to
match; `Toolset.has_tool` is `get_tool` being successful, both consulting
the same dict). -/
def Toolset.getTool (ts : Toolset) (v : PyVal) : Option PyTool :=
  match v with
  | .str s => ts.tools.lookup s
  | _ => Option.none

def Toolset.hasTool (ts : Toolset) (v : PyVal) : Bool :=
  (ts.getTool v).isSome

/-- `Toolset.get_mcp_tools_list`: the manifest of every member, in dict
order. -/
def Toolset.getMcpToolsList (ts : Toolset) : PyVal :=
  .list (ts.tools.map (fun kv => kv.2.manifest))

/-- The `McpRequest` dataclass. All fields hold arbitrary runtime values
(dataclasses do not enforce annotations); `id` defaults to `999` and
`params` to `None`. -/
structure McpRequest where
  jsonrpc : PyVal
  method : PyVal
  id : PyVal := .int 999
  params : PyVal := PyVal.none

/-- `McpRequest(**request_json)`: keyword construction from a parsed JSON
value. A non-dict raises `TypeError` (`**` needs a mapping); an unknown
key raises `TypeError` (unexpected keyword argument); a missing `jsonrpc`
or `method` raises `TypeError` (missing required argument). Parsed JSON
dicts have unique keys. -/
def McpRequest.fromDict (v : PyVal) : Except PyErr McpRequest :=
  match v with
  | .dict kvs =>
    match kvs.find? (fun kv =>
        !(kv.1 = "jsonrpc" || kv.1 = "method" || kv.1 = "id" || kv.1 = "params")) with
    | Option.some kv =>
      .error (.typeError ("__init__() got an unexpected keyword argument \x27" ++ kv.1 ++ "\x27"))
    | Option.none =>
      match kvs.lookup "jsonrpc" with
      | Option.none => .error (.typeError "__init__() missing 1 required positional argument: \x27jsonrpc\x27")
      | Option.some jsonrpc =>
        match kvs.lookup "method" with
        | Option.none => .error (.typeError "__init__() missing 1 required positional argument: \x27method\x27")
        | Option.some method =>
          .ok { jsonrpc := jsonrpc, method := method,
                id := (kvs.lookup "id").getD (.int 999),
                params := (kvs.lookup "params").getD PyVal.none }
  | _ => .error (.typeError "argument after ** must be a mapping")

/-- The `McpResponse` dataclass **as written in the source**: fields
`jsonrpc`, `id` and `result` only — the `error` field is commented out. -/
structure McpResponse where
  jsonrpc : PyVal
  id : PyVal
  result : PyVal := PyVal.none

/-- A call `McpResponse(jsonrpc=…, id=…, error=…)` as it appears in every
error path of `protocol.py`. Because the dataclass declares no `error`
field, this call raises `TypeError` in Python; the embedding returns that
exception. -/
def McpResponse.mkError (jsonrpc id error : PyVal) : Except PyErr McpResponse :=
  .error (.typeError "__init__() got an unexpected keyword argument \x27error\x27")

/-- `response.__dict__`, the value serialized by `handle_request`. -/
def McpResponse.toDict (r : McpResponse) : PyVal :=
  .dict [("jsonrpc", r.jsonrpc), ("id", r.id), ("result", r.result)]

/-- A JSON-RPC error object `{"code": …, "message": …}`. -/
def errObj (code : Int) (message : String) : PyVal :=
  .dict [("code", .int code), ("message", .str message)]

/-- The `McpServer` protocol engine: the tool registry, the toolset map
and the observability-only `initialized` flag. -/
structure McpServer where
  tools : List (String × PyTool)
  toolsets : List (String × Toolset)
  initialized : Bool

/-- `McpServer.__init__`: keeps the given registries and adds the
default empty-named toolset over all tools — only when the configuration
did not already define one. -/
def mkMcpServer (tools : List (String × PyTool)) (toolsets : List (String × Toolset)) :
    McpServer :=
  { tools := tools,
    toolsets :=
      if (toolsets.lookup "").isSome then toolsets
      else toolsets ++ [("", ⟨"", tools, Option.some "Default toolset with all tools"⟩)],
    initialized := false }

/-- The fixed `initialize` result envelope. -/
def initResultPayload : PyVal :=
  .dict [("protocolVersion", .str "2024-11-05"),
         ("capabilities", .dict [("tools", .dict [("listChanged", .bool false)])]),
         ("serverInfo", .dict [("name", .str "Python MCP Toolbox"), ("version", .str "1.0.0")])]

/-- `McpServer._handle_list_tools`: unknown toolset name attempts to build
an error response (which raises, see `McpResponse.mkError`); otherwise the
toolset's manifests. -/
def McpServer.handleListTools (S : McpServer) (req : McpRequest) (toolsetName : String) :
    Except PyErr McpResponse :=
  match S.toolsets.lookup toolsetName with
  | Option.none =>
    McpResponse.mkError (.str "2.0") req.id (errObj (-32602) ("Toolset not found: " ++ toolsetName))
  | Option.some toolset =>
    .ok { jsonrpc := .str "2.0", id := req.id,
          result := .dict [("tools", toolset.getMcpToolsList)] }

/-- `McpServer._handle_call_tool`: resolve the toolset and the tool (the
two `-32602` paths attempt to build error responses and raise instead, see
`McpResponse.mkError`), then invoke under `try`: a result is wrapped as
text content, an exception as text content with `isError: true` — still a
success envelope. A truthy non-dict `params` raises `AttributeError` at
`params.get`. -/
def McpServer.handleCallTool (S : McpServer) (req : McpRequest) (toolsetName : String) :
    Except PyErr McpResponse :=
  let params := if pyTruthy req.params then req.params else PyVal.dict []
  match params with
  | .dict kvs =>
    let toolName := (kvs.lookup "name").getD PyVal.none
    let arguments := (kvs.lookup "arguments").getD (PyVal.dict [])
    match S.toolsets.lookup toolsetName with
    | Option.none =>
      McpResponse.mkError (.str "2.0") req.id (errObj (-32602) ("Toolset not found: " ++ toolsetName))
    | Option.some toolset =>
      match toolset.getTool toolName with
      | Option.none =>
        McpResponse.mkError (.str "2.0") req.id
          (errObj (-32602) ("Tool not found in toolset: " ++ pyStr toolName))
      | Option.some tool =>
        match tool.invoke arguments with
        | .ok results =>
          .ok { jsonrpc := .str "2.0", id := req.id,
                result := .dict [("content",
                  .list [.dict [("type", .str "text"), ("text", .str (pyJsonDumps results))]])] }
        | .error e =>
          .ok { jsonrpc := .str "2.0", id := req.id,
                result := .dict [("content",
                  .list [.dict [("type", .str "text"), ("text", .str (PyErr.msg e))]]),
                  ("isError", .bool true)] }
  | _ => .error (.attributeError "object has no attribute \x27get\x27")

/-- `McpServer._process_request`: dispatch on `request.method` (Python
`==`). `initialize` sets the flag and returns the fixed payload;
`notifications/initialized` returns an empty result; unknown methods
attempt a `-32601` error response (which raises). -/
def McpServer.processRequest (S : McpServer) (req : McpRequest) (toolsetName : String) :
    McpServer × Except PyErr McpResponse :=
  if pyEq req.method (.str "initialize") then
    ({ S with initialized := true },
     .ok { jsonrpc := .str "2.0", id := req.id, result := initResultPayload })
  else if pyEq req.method (.str "notifications/initialized") then
    (S, .ok { jsonrpc := .str "2.0", id := req.id, result := .dict [] })
  else if pyEq req.method (.str "tools/list") then
    (S, S.handleListTools req toolsetName)
  else if pyEq req.method (.str "tools/call") then
    (S, S.handleCallTool req toolsetName)
  else
    (S, McpResponse.mkError (.str "2.0") req.id
      (errObj (-32601) ("Method not found: " ++ pyStr req.method)))

/-- The `except Exception` handler of `handle_request`: it tries to build
a `-32603` error response — but that construction itself raises (the
dataclass has no `error` field), so the new `TypeError` propagates out of
`handle_request` instead of the serialized envelope. -/
def exceptHandler (e : PyErr) : Except PyErr (Option PyVal) :=
  match McpResponse.mkError (.str "2.0") PyVal.none (errObj (-32603) (PyErr.msg e)) with
  | .ok r => .ok (Option.some r.toDict)
  | .error e2 => .error e2

/-- `McpServer.handle_request`, up to serialization: takes the outcome
`parsed` of `json.loads(request_data)` (the standard-library parser is the
external collaborator here: a parse failure is its raised exception),
builds the `McpRequest`, processes it, and returns the response dict
(`response.__dict__`) that the source passes to `json.dumps`. A dataclass
instance is always truthy, so the `if response:` guard always takes the
serialization branch. Any exception from the `try` block goes through
`exceptHandler`. -/
def McpServer.handleRequestVal (S : McpServer) (parsed : Except PyErr PyVal)
    (toolsetName : String) : McpServer × Except PyErr (Option PyVal) :=
  match parsed with
  | .error e => (S, exceptHandler e)
  | .ok v =>
    match McpRequest.fromDict v with
    | .error e => (S, exceptHandler e)
    | .ok req =>
      match S.processRequest req toolsetName with
      | (S2, .ok resp) => (S2, .ok (Option.some resp.toDict))
      | (S2, .error e) => (S2, exceptHandler e)

/-- `McpServer.handle_request` proper: the serialized response text. -/
def McpServer.handleRequest (S : McpServer) (parsed : Except PyErr PyVal)
    (toolsetName : String) : McpServer × Except PyErr (Option String) :=
  match S.handleRequestVal parsed toolsetName with
  | (S2, .ok r) => (S2, .ok (r.map pyJsonDumps))
  | (S2, .error e) => (S2, .error e)

/-! ## HTTP POST transport (`server/http_server.py`) -/

/-- An SSE session: identifier, toolset scope, closed flag and the
outbound event queue (event name, data). -/
structure SseSession where
  sessionId : String
  toolsetName : String
  closed : Bool
  queue : List (String × PyVal)

/-- `SSESession.send_event`: enqueue unless closed. -/
def SseSession.sendEvent (s : SseSession) (eventType : String) (data : PyVal) : SseSession :=
  if s.closed then s else { s with queue := s.queue ++ [(eventType, data)] }

/-- The HTTP front-end state: the shared engine and the SSE session
registry. -/
structure HttpMcpServer where
  mcp : McpServer
  sseSessions : List (String × SseSession)

/-- The reply of one `POST /mcp[/{toolset}]` call. -/
structure HttpReply where
  status : Nat
  body : Option String

/-- `HttpMcpServer.handle_mcp_request`: feed the body to the engine; on a
response, mirror it onto the correlated SSE session (when a truthy
`sessionId` query parameter names a registered session — the mirrored
value is the response the engine just serialized, re-parsed) and answer
200 with the JSON text, or 204 with no body when the engine returned
nothing; any exception from the engine is answered as HTTP 500 with a
`-32603` "Internal error" JSON-RPC body. -/
def HttpMcpServer.handleMcpRequest (H : HttpMcpServer) (sessionId : Option String)
    (toolsetName : String) (parsedBody : Except PyErr PyVal) :
    HttpMcpServer × HttpReply :=
  match H.mcp.handleRequestVal parsedBody toolsetName with
  | (S2, .error e) =>
    ({ H with mcp := S2 },
     { status := 500,
       body := Option.some (pyJsonDumps (.dict [("jsonrpc", .str "2.0"), ("id", PyVal.none),
         ("error", .dict [("code", .int (-32603)), ("message", .str "Internal error"),
                          ("data", .str (PyErr.msg e))])])) })
  | (S2, .ok respOpt) =>
    let H2 : HttpMcpServer :=
      match sessionId, respOpt with
      | Option.some sid, Option.some v =>
        if sid ≠ "" && (H.sseSessions.lookup sid).isSome then
          { mcp := S2,
            sseSessions := H.sseSessions.map (fun kv =>
              if kv.1 = sid then (kv.1, kv.2.sendEvent "message" v) else kv) }
        else { H with mcp := S2 }
      | _, _ => { H with mcp := S2 }
    match respOpt with
    | Option.some v => (H2, { status := 200, body := Option.some (pyJsonDumps v) })
    | Option.none => (H2, { status := 204, body := Option.none })

/-! ## Invocation middleware (`ToolboxServer.attach_pre_hook` in
`server/server.py`)

A tool's `invoke` is modelled here as a function from the arguments to a
pair of (the trace of executed pre-hook identifiers — the observable side
effect of `run_hook` — and the result or raised exception). The hook
loaded by `load_hook_from_path` is an external import, supplied through a
`hookEnv`; the metadata enrichment (`get_column_descriptions` +
`resolve_column_descriptions`, an out-of-scope collaborator) is supplied
through a `describeColumns` function. -/

/-- The trace of hook executions observed during one invocation. -/
abbrev Trace := List String

/-- A pre-hook: from the call's raw arguments to its side-effect trace
and either completion or a raised exception. -/
abbrev HookFn := PyVal → Trace × Except PyErr Unit

/-- A tool invocation function under the middleware model. -/
abbrev InvokeFn := PyVal → Trace × Except PyErr PyVal

/-- A tool as `ToolboxServer` holds it: just its (mutable) `invoke`. -/
structure SrvTool where
  invoke : InvokeFn

/-- The per-tool config keys that `attach_pre_hook` reads
(`tool_config.get("pre_hook")`, `tool_config.get("datasource_ids")`);
`Option.none` embeds an absent key. -/
structure SrvToolConfig where
  pre_hook : Option String
  datasource_ids : Option String

/-- Truthiness of `config.get(key)`: present and a non-empty string. -/
def optTruthy : Option String → Bool
  | Option.some s => s ≠ ""
  | Option.none => false

/-- `run_hook(hook, params)`: runs the hook, re-raising its exception;
called with `None` (possible through the late-bound `if hook:` guard, see
`attachPreHook`) it raises `TypeError` inside `asyncio.to_thread`. -/
def runHook (hook : Option HookFn) (params : PyVal) : Trace × Except PyErr Unit :=
  match hook with
  | Option.some h => h params
  | Option.none => ([], .error (.typeError "the first argument must be callable"))

/-- `result[0]["data"]` of the post-processing guard, with the Python
exceptions of each subscript. -/
def resultDataField (result : PyVal) : Except PyErr PyVal :=
  match result with
  | .list [] => .error (.indexError "list index out of range")
  | .list (x :: _) =>
    match x with
    | .dict kvs =>
      match kvs.lookup "data" with
      | Option.some v => .ok v
      | Option.none => .error (.keyError "data")
    | _ => .error (.typeError "value is not subscriptable")
  | _ => .error (.typeError "value is not subscriptable")

/-- `result.append({"column_descriptions": …})`. -/
def appendDescriptions (result : PyVal) (descs : PyVal) : PyVal :=
  match result with
  | .list xs => .list (xs ++ [.dict [("column_descriptions", descs)]])
  | v => v

/-- The `wrapped_invoke` closure created by `attach_pre_hook`.

`cellHookTruthy` is the truthiness of the **late-bound** loop variable
`hook` read by `if hook:` at call time (all wrappers created by one
`attach_pre_hook` run share that cell; its final value comes from the last
config item that entered the branch); `hook` itself is the per-tool
`_hook` default argument actually passed to `run_hook`. A hook exception
propagates as an invocation failure; then the original invoke runs; then,
when `_datasource_ids` is truthy and `result[0]["data"]` is truthy, the
column-description enrichment is appended as an extra result element. -/
def wrappedInvoke (cellHookTruthy : Bool) (hook : Option HookFn)
    (dsIds : Option (List String)) (describeColumns : List String → PyVal → PyVal)
    (origInvoke : InvokeFn) (params : PyVal) : Trace × Except PyErr PyVal :=
  let hookStep : Trace × Except PyErr Unit :=
    if cellHookTruthy then runHook hook params else ([], .ok ())
  match hookStep with
  | (tr, .error e) => (tr, .error e)
  | (tr, .ok _) =>
    match origInvoke params with
    | (tr2, .error e) => (tr ++ tr2, .error e)
    | (tr2, .ok result) =>
      let dsTruthy := match dsIds with
        | Option.some ids => !ids.isEmpty
        | Option.none => false
      if dsTruthy then
        match resultDataField result with
        | .error e => (tr ++ tr2, .error e)
        | .ok dataVal =>
          if pyTruthy dataVal then
            (tr ++ tr2, .ok (appendDescriptions result
              (describeColumns (dsIds.getD []) result)))
          else (tr ++ tr2, .ok result)
      else (tr ++ tr2, .ok result)

/-- The final value of the loop-local `hook` variable after one
`attach_pre_hook` run: assigned by the last config item entering the
`if pre_hook or datasource_ids` branch (truthy `pre_hook` loads the hook,
otherwise `None`). -/
def finalHookTruthy (cfgs : List (String × SrvToolConfig)) : Bool :=
  match (cfgs.filter (fun kv =>
      optTruthy kv.2.pre_hook || optTruthy kv.2.datasource_ids)).getLast? with
  | Option.some kv => optTruthy kv.2.pre_hook
  | Option.none => false

/-- One iteration of the `attach_pre_hook` loop over `(tool, tool_config)`
items: when the config has a truthy `pre_hook` or `datasource_ids`, look
the hook up, split the datasource ids, and replace
`self.tools[tool].invoke` with a `wrapped_invoke` closure over the
*current* invoke; a config naming a tool absent from the registry raises
`KeyError`. -/
def attachStep (hookEnv : String → HookFn)
    (describeColumns : List String → PyVal → PyVal) (cell : Bool)
    (tools : List (String × SrvTool)) (kv : String × SrvToolConfig) :
    Except PyErr (List (String × SrvTool)) :=
  let toolName := kv.1
  let cfg := kv.2
  if optTruthy cfg.pre_hook || optTruthy cfg.datasource_ids then
    let hook : Option HookFn :=
      if optTruthy cfg.pre_hook then Option.some (hookEnv (cfg.pre_hook.getD ""))
      else Option.none
    let dsIds : Option (List String) :=
      match cfg.datasource_ids with
      | Option.some s => if s ≠ "" then Option.some (s.splitOn ",") else Option.none
      | Option.none => Option.none
    match tools.lookup toolName with
    | Option.none => .error (.keyError toolName)
    | Option.some t =>
      .ok (updateAssoc tools toolName
        ⟨wrappedInvoke cell hook dsIds describeColumns t.invoke⟩)
  else .ok tools

/-- `ToolboxServer.attach_pre_hook`: the loop over the tool configs, with
the shared late-bound `hook` cell truthiness (see `finalHookTruthy`)
passed to every wrapper the run creates. Running it a second time wraps
each already-wrapped invoke again. -/
def attachPreHook (hookEnv : String → HookFn)
    (describeColumns : List String → PyVal → PyVal)
    (cfgs : List (String × SrvToolConfig)) (tools : List (String × SrvTool)) :
    Except PyErr (List (String × SrvTool)) :=
  cfgs.foldlM (attachStep hookEnv describeColumns (finalHookTruthy cfgs)) tools

/-! ## Concrete instances used by the theorems -/

/-- A `Parameter(name, type, description=desc, required=False)` call (no
explicit default), i.e. the dataclass constructor followed by
`__post_init__`. -/
def optionalParam (name desc : String) (t : ParameterType) : Parameter :=
  Parameter.postInit { Parameter.basic name t with description := desc, required := false }

/-- A `Parameter(name, MAP, description=desc, value_type=vt)` call. -/
def mapParamWith (name desc : String) (vt : ParameterType) : Parameter :=
  Parameter.postInit { Parameter.basic name .map with description := desc, value_type := Option.some vt }

/-- A demo tool and server used to evaluate the engine at concrete
requests. -/
def demoTool : PyTool :=
  ⟨.dict [("name", .str "demo"), ("description", .str "a demo tool"),
          ("inputSchema", .dict [("type", .str "object")])],
   fun _ => .ok (.str "ok")⟩

def demoServer : McpServer := mkMcpServer [("demo", demoTool)] []

def demoHttp : HttpMcpServer := ⟨demoServer, []⟩

/-- A concrete `tools/call` request body. -/
def callReqDict (toolName : String) : PyVal :=
  .dict [("jsonrpc", .str "2.0"), ("id", .int 1), ("method", .str "tools/call"),
         ("params", .dict [("name", .str toolName), ("arguments", .dict [])])]

/-- A demo tool whose invoke always raises. -/
def boomTool : PyTool :=
  ⟨.dict [("name", .str "boom")], fun _ => .error (.valueError "boom")⟩

/-- Two distinct demo tools for the toolset-listing claims. -/
def toolA : PyTool := ⟨.dict [("name", .str "a")], fun _ => .ok PyVal.none⟩

def toolB : PyTool := ⟨.dict [("name", .str "b")], fun _ => .ok PyVal.none⟩

/-- A hook environment whose hooks record their load path in the trace
and succeed. -/
def hookEnvDemo : String → HookFn := fun p => fun _ => ([p], .ok ())

/-- One tool config carrying a pre-hook reference only. -/
def hookedCfg : List (String × SrvToolConfig) :=
  [("t", ⟨Option.some "mod:my_hook", Option.none⟩)]

/-- A tool whose original invoke runs no hooks and returns `[]`. -/
def plainSrvTool : SrvTool := ⟨fun _ => ([], .ok (.list []))⟩

/-- A trivial column-description collaborator (never reached in the
middleware claims, which configure no datasource ids). -/
def noDescs : List String → PyVal → PyVal := fun _ _ => PyVal.none

/-- The invocation outcome of one tool of an attach result: its trace of
executed hooks and its result. -/
def invokeAfter (r : Except PyErr (List (String × SrvTool)))
    (toolName : String) (args : PyVal) : Option (Trace × Except PyErr PyVal) :=
  match r with
  | .ok ts => (ts.lookup toolName).map (fun t => t.invoke args)
  | .error _ => Option.none

/-- Running the attach step (initialization) a second time on its own
output. -/
def attachTwice (hookEnv : String → HookFn)
    (describeColumns : List String → PyVal → PyVal)
    (cfgs : List (String × SrvToolConfig)) (tools : List (String × SrvTool)) :
    Except PyErr (List (String × SrvTool)) :=
  match attachPreHook hookEnv describeColumns cfgs tools with
  | .ok ts => attachPreHook hookEnv describeColumns cfgs ts
  | .error e => .error e

/-! ## Theorems about the parameter model -/

/-- C4 counterexample: a `map`-typed parameter built with `required=False`
and no explicit default. The claim says its default is a concrete non-null
value of the appropriate type and `validate(None)` returns it; in the code
the `defaults` dict has no `MAP` entry, so the default stays `None` and
`validate(None)` returns `None`. -/
theorem c4_map_default_is_none :
    (optionalParam "m" "" .map).default = PyVal.none ∧
    (optionalParam "m" "" .map).validate PyVal.none = .ok PyVal.none := by
  constructor
  · rfl
  · simp [optionalParam, Parameter.postInit, Parameter.basic, getDefaultValue,
      PyVal.isNone, Parameter.validate]

/-- C4 (amended): for every declared type **except `map`**, a parameter
constructed with `required=False` and no explicit default gets the
concrete, non-null default of the `defaults` table ("" / 0 / 0.0 / False /
[] / an empty dict), and `validate(None)` returns that value rather than
null; for `map` the default remains `None`. -/
theorem c4_optional_default_resolves (name desc : String) (t : ParameterType)
    (ht : t ≠ ParameterType.map) :
    (optionalParam name desc t).default = getDefaultValue t ∧
    getDefaultValue t ≠ PyVal.none ∧
    (optionalParam name desc t).validate PyVal.none = .ok (getDefaultValue t) := by
  refine ⟨?_, ?_, ?_⟩
  · simp [optionalParam, Parameter.postInit, Parameter.basic, PyVal.isNone]
  · cases t <;> simp [getDefaultValue] at ht ⊢
  · simp [optionalParam, Parameter.postInit, Parameter.basic, PyVal.isNone,
      Parameter.validate]

/-- C4 witness: the concrete instantiation at an optional integer
parameter. -/
theorem c4_optional_default_resolves_witness :
    (optionalParam "n" "d" .integer).default = getDefaultValue .integer ∧
    getDefaultValue .integer ≠ PyVal.none ∧
    (optionalParam "n" "d" .integer).validate PyVal.none = .ok (getDefaultValue .integer) :=
  c4_optional_default_resolves "n" "d" .integer (by simp)

/-- C7: boolean-typed parameters. Type coercion returns a native boolean
unchanged; a string equal case-insensitively to one of true/1/yes/on maps
to `True` and one of false/0/no/off to `False`, any other string raises;
numeric input maps to its non-zero test. In particular, for a boolean
parameter without an enum constraint, `validate("On")` is `True` and
`validate("maybe")` raises. -/
theorem c7_boolean_validate (p : Parameter) (hty : p.type = ParameterType.boolean) :
    (∀ b, p.validateType (.bool b) = .ok (.bool b)) ∧
    (∀ s : String,
      (pyLower s = "true" ∨ pyLower s = "1" ∨ pyLower s = "yes" ∨ pyLower s = "on") →
      p.validateType (.str s) = .ok (.bool true)) ∧
    (∀ s : String,
      (pyLower s = "false" ∨ pyLower s = "0" ∨ pyLower s = "no" ∨ pyLower s = "off") →
      p.validateType (.str s) = .ok (.bool false)) ∧
    (∀ s : String,
      ¬(pyLower s = "true" ∨ pyLower s = "1" ∨ pyLower s = "yes" ∨ pyLower s = "on") →
      ¬(pyLower s = "false" ∨ pyLower s = "0" ∨ pyLower s = "no" ∨ pyLower s = "off") →
      p.validateType (.str s) = .error (.valueError
        ("Parameter \x27" ++ p.name ++ "\x27 must be a boolean, got \x27" ++ s ++ "\x27"))) ∧
    (∀ n : Int, p.validateType (.int n) = .ok (.bool (decide (n ≠ 0)))) ∧
    (∀ q : ℚ, p.validateType (.float q) = .ok (.bool (decide (q ≠ 0)))) ∧
    (p.enum = Option.none →
      p.validate (.str "On") = .ok (.bool true) ∧
      p.validate (.str "maybe") = .error (.valueError
        ("Parameter \x27" ++ p.name ++ "\x27 must be a boolean, got \x27" ++ "maybe" ++ "\x27"))) := by
  refine ⟨?_, ?_, ?_, ?_, ?_, ?_, ?_⟩
  · intro b; simp [Parameter.validateType, hty]
  · intro s hs; simp [Parameter.validateType, hty, hs]
  · intro s hs
    have hs2 : ¬(pyLower s = "true" ∨ pyLower s = "1" ∨ pyLower s = "yes" ∨ pyLower s = "on") := by
      rcases hs with h | h | h | h <;> simp [h]
    simp [Parameter.validateType, hty, hs, hs2]
  · intro s h1 h2; simp [Parameter.validateType, hty, h1, h2]
  · intro n; simp [Parameter.validateType, hty]
  · intro q; simp [Parameter.validateType, hty]
  · intro henum
    have hOn : (pyLower "On" = "true" ∨ pyLower "On" = "1" ∨ pyLower "On" = "yes" ∨
        pyLower "On" = "on") := by decide
    have hMay1 : ¬(pyLower "maybe" = "true" ∨ pyLower "maybe" = "1" ∨
        pyLower "maybe" = "yes" ∨ pyLower "maybe" = "on") := by decide
    have hMay2 : ¬(pyLower "maybe" = "false" ∨ pyLower "maybe" = "0" ∨
        pyLower "maybe" = "no" ∨ pyLower "maybe" = "off") := by decide
    constructor
    · simp only [Parameter.validate, Parameter.validateType, hty, hOn,
        Parameter.validateConstraints, henum, if_true, if_pos]
      rfl
    · simp [Parameter.validate, Parameter.validateType, hty, hMay1, hMay2,
        Parameter.validateConstraints, henum]

/-- C7 witness: a concrete constraint-free boolean parameter. -/
theorem c7_boolean_validate_witness :
    ((Parameter.basic "flag" .boolean).validate (.str "On") = .ok (.bool true)) ∧
    ((Parameter.basic "flag" .boolean).validateType (.int 5) = .ok (.bool true)) ∧
    ((Parameter.basic "flag" .boolean).validateType (.bool false) = .ok (.bool false)) :=
  ⟨((c7_boolean_validate (Parameter.basic "flag" .boolean) rfl).2.2.2.2.2.2 rfl).1,
   (c7_boolean_validate (Parameter.basic "flag" .boolean) rfl).2.2.2.2.1 5,
   (c7_boolean_validate (Parameter.basic "flag" .boolean) rfl).1 false⟩

/-- C8: integer-typed parameters. Booleans are rejected before the
integer check (even though Python booleans are integers); strings go
through the exact `int()` parse, raising on any non-integer string;
floats are accepted exactly when they have no fractional part, yielding
the exact integer; integers pass unchanged. -/
theorem c8_integer_validate (p : Parameter) (hty : p.type = ParameterType.integer) :
    (∀ b, p.validateType (.bool b) = .error (.valueError
      ("Parameter \x27" ++ p.name ++ "\x27 must be an integer, got boolean"))) ∧
    (∀ (s : String) (n : Int), pyIntParse s = Option.some n →
      p.validateType (.str s) = .ok (.int n)) ∧
    (∀ s : String, pyIntParse s = Option.none →
      p.validateType (.str s) = .error (.valueError
        ("Parameter \x27" ++ p.name ++ "\x27 must be an integer, got \x27" ++ s ++ "\x27"))) ∧
    (∀ q : ℚ, q.den = 1 → p.validateType (.float q) = .ok (.int q.num)) ∧
    (∀ q : ℚ, q.den ≠ 1 → p.validateType (.float q) = .error (.valueError
      ("Parameter \x27" ++ p.name ++ "\x27 must be an integer, got float " ++
        pyStr (.float q)))) ∧
    (∀ n : Int, p.validateType (.int n) = .ok (.int n)) := by
  refine ⟨?_, ?_, ?_, ?_, ?_, ?_⟩
  · intro b; simp [Parameter.validateType, hty]
  · intro s n hs; simp [Parameter.validateType, hty, hs]
  · intro s hs; simp [Parameter.validateType, hty, hs]
  · intro q hq; simp [Parameter.validateType, hty, hq]
  · intro q hq; simp [Parameter.validateType, hty, hq]
  · intro n; simp [Parameter.validateType, hty]

/-- C8 witness: concrete inputs through a concrete integer parameter:
`"42"` parses, `"abc"` raises, `4.0` is accepted as `4`, `True` raises,
`7` passes. -/
theorem c8_integer_validate_witness :
    ((Parameter.basic "n" .integer).validateType (.str "42") = .ok (.int 42)) ∧
    ((Parameter.basic "n" .integer).validateType (.str "abc") = .error (.valueError
      "Parameter \x27n\x27 must be an integer, got \x27abc\x27")) ∧
    ((Parameter.basic "n" .integer).validateType (.float 4) = .ok (.int 4)) ∧
    ((Parameter.basic "n" .integer).validateType (.bool true) = .error (.valueError
      "Parameter \x27n\x27 must be an integer, got boolean")) ∧
    ((Parameter.basic "n" .integer).validateType (.int 7) = .ok (.int 7)) :=
  ⟨(c8_integer_validate (Parameter.basic "n" .integer) rfl).2.1 "42" 42 (by decide),
   (c8_integer_validate (Parameter.basic "n" .integer) rfl).2.2.1 "abc" (by decide),
   (c8_integer_validate (Parameter.basic "n" .integer) rfl).2.2.2.1 4 (by decide),
   (c8_integer_validate (Parameter.basic "n" .integer) rfl).1 true,
   (c8_integer_validate (Parameter.basic "n" .integer) rfl).2.2.2.2.2 7⟩

/-- C10: a map-typed parameter declared with a non-scalar `value_type`
(array/object/map) is accepted at construction (`__post_init__` performs
no value-type check), but every `validate` call on a mapping input raises
a `ValueError` naming the unsupported valueType. -/
theorem c10_map_nonscalar_value_type (name desc : String) (vt : ParameterType)
    (hvt : vt = ParameterType.array ∨ vt = ParameterType.object ∨ vt = ParameterType.map) :
    ((mapParamWith name desc vt).type = ParameterType.map ∧
     (mapParamWith name desc vt).value_type = Option.some vt) ∧
    (∀ kvs, (mapParamWith name desc vt).validate (.dict kvs) =
      .error (.valueError ("Parameter \x27" ++ name ++ "\x27 has unsupported valueType \x27" ++
        parameterTypeStr vt ++ "\x27"))) := by
  constructor
  · constructor <;> simp [mapParamWith, Parameter.postInit, Parameter.basic, PyVal.isNone]
  · intro kvs
    have hvt2 : ¬(vt = ParameterType.string ∨ vt = ParameterType.integer ∨
        vt = ParameterType.number ∨ vt = ParameterType.boolean) := by
      rcases hvt with h | h | h <;> simp [h]
    simp [mapParamWith, Parameter.postInit, Parameter.basic, PyVal.isNone,
      Parameter.validate, Parameter.validateType, hvt2]

/-- C10 witness: the concrete instantiation at `value_type = array`. -/
theorem c10_map_nonscalar_value_type_witness :
    (mapParamWith "m" "d" ParameterType.array).validate (.dict [("k", .int 1)]) =
      .error (.valueError
        "Parameter \x27m\x27 has unsupported valueType \x27ParameterType.ARRAY\x27") :=
  (c10_map_nonscalar_value_type "m" "d" ParameterType.array (by simp)).2 [("k", .int 1)]

/-! ## Theorems about the protocol engine and the POST transport -/

/-- Every `.ok` branch of `_handle_list_tools` carries the request's id. -/
theorem handleListTools_ok_id (S : McpServer) (req : McpRequest) (tn : String)
    (resp : McpResponse) (h : S.handleListTools req tn = .ok resp) : resp.id = req.id := by
  unfold McpServer.handleListTools at h
  split at h
  · simp_all [McpResponse.mkError]
  · exact ((Except.ok.inj h) ▸ rfl)

/-- Every `.ok` branch of `_handle_call_tool` carries the request's id. -/
theorem handleCallTool_ok_id (S : McpServer) (req : McpRequest) (tn : String)
    (resp : McpResponse) (h : S.handleCallTool req tn = .ok resp) : resp.id = req.id := by
  unfold McpServer.handleCallTool at h
  split at h <;> split at h <;>
    (try (cases hp : req.params <;> (try simp only [hp] at h))) <;>
    (repeat' split at h) <;>
    first
      | exact (Except.ok.inj h) ▸ rfl
      | (subst h; rfl)
      | simp_all [McpResponse.mkError]

/-- Every response `_process_request` successfully returns carries the
request's id. -/
theorem processRequest_ok_id (S : McpServer) (req : McpRequest) (tn : String)
    (S2 : McpServer) (resp : McpResponse)
    (h : S.processRequest req tn = (S2, .ok resp)) : resp.id = req.id := by
  unfold McpServer.processRequest at h
  split at h
  · rw [Prod.mk.injEq] at h
    exact (Except.ok.inj h.2) ▸ rfl
  · split at h
    · rw [Prod.mk.injEq] at h
      exact (Except.ok.inj h.2) ▸ rfl
    · split at h
      · rw [Prod.mk.injEq] at h
        exact handleListTools_ok_id S req tn resp h.2
      · split at h
        · rw [Prod.mk.injEq] at h
          exact handleCallTool_ok_id S req tn resp h.2
        · simp_all [McpResponse.mkError]

/-- A successfully constructed `McpRequest` takes its id from the `id`
key, defaulting to the dataclass default `999` when the key is absent. -/
theorem fromDict_ok_id (kvs : List (String × PyVal)) (req : McpRequest)
    (h : McpRequest.fromDict (.dict kvs) = .ok req) :
    req.id = (kvs.lookup "id").getD (.int 999) := by
  unfold McpRequest.fromDict at h
  repeat' split at h
  all_goals
    first
      | (obtain rfl := Except.ok.inj h; simp_all)
      | (obtain rfl := (Except.ok.inj h).symm; simp_all)
      | simp_all

/-- Looking a key up past a prefix that does not bind it. -/
theorem lookup_append_of_none {α : Type} (l1 l2 : List (String × α)) (k : String)
    (h : l1.lookup k = Option.none) : (l1 ++ l2).lookup k = l2.lookup k := by
  induction l1 with
  | nil => rfl
  | cons a l ih =>
    rw [List.cons_append]
    simp only [List.lookup] at h ⊢
    cases hka : (k == a.1)
    · simp only [hka] at h ⊢
      exact ih h
    · simp [hka] at h

/-- C1 (evaluation at the failing inputs): calling `tools/call` with an
unknown toolset name — and likewise with a tool name absent from the
resolved toolset — makes `_handle_call_tool` attempt
`McpResponse(..., error={"code": -32602, ...})`; the dataclass has no
`error` field, so the engine raises `TypeError` instead of returning the
`-32602` error response, and the POST transport's `except` answers
HTTP 500 — the opposite of the claimed never-a-500 behaviour. -/
theorem c1_unknown_toolset_raises_typeerror_and_http_500 :
    (demoServer.handleCallTool
        { jsonrpc := .str "2.0", method := .str "tools/call", id := .int 1,
          params := .dict [("name", .str "demo"), ("arguments", .dict [])] } "nosuch"
      = .error (.typeError "__init__() got an unexpected keyword argument \x27error\x27")) ∧
    ((demoHttp.handleMcpRequest Option.none "nosuch" (.ok (callReqDict "demo"))).2.status = 500) ∧
    (demoServer.handleCallTool
        { jsonrpc := .str "2.0", method := .str "tools/call", id := .int 1,
          params := .dict [("name", .str "missing"), ("arguments", .dict [])] } ""
      = .error (.typeError "__init__() got an unexpected keyword argument \x27error\x27")) ∧
    ((demoHttp.handleMcpRequest Option.none "" (.ok (callReqDict "missing"))).2.status = 500) :=
  ⟨rfl, rfl, rfl, rfl⟩

/-- C2 (evaluation of the broken handler): when the `try` block of
`handle_request` raises — a JSON parse failure, or an `McpRequest`
construction failure — the `except` handler's own
`McpResponse(..., error=...)` raises `TypeError` (no `error` field), so
`handle_request` raises instead of returning the claimed serialized
`-32603` envelope. -/
theorem c2_error_envelope_never_returned :
    (∀ (S : McpServer) (e : PyErr) (tn : String),
      S.handleRequestVal (.error e) tn =
        (S, .error (.typeError "__init__() got an unexpected keyword argument \x27error\x27"))) ∧
    (∀ (S : McpServer) (v : PyVal) (tn : String) (e : PyErr),
      McpRequest.fromDict v = .error e →
      S.handleRequestVal (.ok v) tn =
        (S, .error (.typeError "__init__() got an unexpected keyword argument \x27error\x27"))) := by
  constructor
  · intro S e tn; rfl
  · intro S v tn e h
    unfold McpServer.handleRequestVal
    simp only [h]
    rfl

/-- C2 witness: a body that is not a JSON object (so `McpRequest(**…)`
raises), evaluated on a concrete server. -/
theorem c2_error_envelope_never_returned_witness :
    (mkMcpServer [] []).handleRequestVal (.ok (.str "nope")) "" =
      (mkMcpServer [] [],
       .error (.typeError "__init__() got an unexpected keyword argument \x27error\x27")) :=
  c2_error_envelope_never_returned.2 (mkMcpServer [] []) (.str "nope") ""
    (.typeError "argument after ** must be a mapping") rfl

/-- C3: when the resolved tool's invoke raises, the engine returns a
JSON-RPC **success** envelope — the response dict has exactly the keys
`jsonrpc`/`id`/`result`, no `error` member — whose content is the
exception text with `isError: true`, and the POST transport answers it
with status 200. -/
theorem c3_tool_exception_reported_as_data (S : McpServer) (tsName toolName : String)
    (ts : Toolset) (tool : PyTool) (args idv : PyVal) (e : PyErr)
    (h1 : S.toolsets.lookup tsName = Option.some ts)
    (h2 : ts.tools.lookup toolName = Option.some tool)
    (h3 : tool.invoke args = .error e) :
    (S.handleRequestVal (.ok (.dict [("jsonrpc", .str "2.0"), ("id", idv),
        ("method", .str "tools/call"),
        ("params", .dict [("name", .str toolName), ("arguments", args)])])) tsName =
      (S, .ok (Option.some (.dict [("jsonrpc", .str "2.0"), ("id", idv),
        ("result", .dict [("content", .list [.dict [("type", .str "text"),
          ("text", .str (PyErr.msg e))]]), ("isError", .bool true)])])))) ∧
    (∀ H : HttpMcpServer, H.mcp = S →
      (H.handleMcpRequest Option.none tsName (.ok (.dict [("jsonrpc", .str "2.0"),
        ("id", idv), ("method", .str "tools/call"),
        ("params", .dict [("name", .str toolName),
          ("arguments", args)])]))).2.status = 200) := by
  have hcall : S.handleCallTool
      { jsonrpc := .str "2.0", method := .str "tools/call", id := idv,
        params := .dict [("name", .str toolName), ("arguments", args)] } tsName =
      .ok { jsonrpc := .str "2.0", id := idv,
            result := .dict [("content", .list [.dict [("type", .str "text"),
              ("text", .str (PyErr.msg e))]]), ("isError", .bool true)] } := by
    simp [McpServer.handleCallTool, h1, Toolset.getTool, h2, h3, pyTruthy, List.lookup]
  have hval : S.handleRequestVal (.ok (.dict [("jsonrpc", .str "2.0"), ("id", idv),
      ("method", .str "tools/call"),
      ("params", .dict [("name", .str toolName), ("arguments", args)])])) tsName =
      (S, .ok (Option.some (.dict [("jsonrpc", .str "2.0"), ("id", idv),
        ("result", .dict [("content", .list [.dict [("type", .str "text"),
          ("text", .str (PyErr.msg e))]]), ("isError", .bool true)])]))) := by
    simp [McpServer.handleRequestVal, McpRequest.fromDict, McpServer.processRequest,
      hcall, McpResponse.toDict, pyEq, pyNum?, List.lookup, List.find?]
  refine ⟨hval, ?_⟩
  intro H hH
  unfold HttpMcpServer.handleMcpRequest
  rw [hH, hval]

/-- C3 witness: a concrete tool whose invoke raises `ValueError("boom")`,
called through the default toolset over a concrete HTTP front-end. -/
theorem c3_tool_exception_reported_as_data_witness :
    ((mkMcpServer [("boom", boomTool)] []).handleRequestVal
      (.ok (.dict [("jsonrpc", .str "2.0"), ("id", .int 7),
        ("method", .str "tools/call"),
        ("params", .dict [("name", .str "boom"), ("arguments", .dict [])])])) "" =
      (mkMcpServer [("boom", boomTool)] [],
       .ok (Option.some (.dict [("jsonrpc", .str "2.0"), ("id", .int 7),
        ("result", .dict [("content", .list [.dict [("type", .str "text"),
          ("text", .str "boom")]]), ("isError", .bool true)])])))) ∧
    ((HttpMcpServer.mk (mkMcpServer [("boom", boomTool)] []) []).handleMcpRequest
      Option.none "" (.ok (.dict [("jsonrpc", .str "2.0"), ("id", .int 7),
        ("method", .str "tools/call"),
        ("params", .dict [("name", .str "boom"),
          ("arguments", .dict [])])]))).2.status = 200 :=
  ⟨(c3_tool_exception_reported_as_data
      (mkMcpServer [("boom", boomTool)] []) "" "boom"
      ⟨"", [("boom", boomTool)], Option.some "Default toolset with all tools"⟩
      boomTool (.dict []) (.int 7) (.valueError "boom") rfl rfl rfl).1,
   (c3_tool_exception_reported_as_data
      (mkMcpServer [("boom", boomTool)] []) "" "boom"
      ⟨"", [("boom", boomTool)], Option.some "Default toolset with all tools"⟩
      boomTool (.dict []) (.int 7) (.valueError "boom") rfl rfl rfl).2
      (HttpMcpServer.mk (mkMcpServer [("boom", boomTool)] []) []) rfl⟩

/-- C6 counterexample: a request without an `id` field. The claim says
the response id is then null; the `McpRequest` dataclass defaults `id` to
`999`, so the `initialize` response echoes `999`, not null. -/
theorem c6_missing_id_becomes_999 :
    (McpRequest.fromDict (.dict [("jsonrpc", .str "2.0"), ("method", .str "initialize")]) =
      .ok { jsonrpc := .str "2.0", method := .str "initialize", id := .int 999,
            params := PyVal.none }) ∧
    (((mkMcpServer [] []).handleRequestVal
        (.ok (.dict [("jsonrpc", .str "2.0"), ("method", .str "initialize")])) "").2 =
      .ok (Option.some (.dict [("jsonrpc", .str "2.0"), ("id", .int 999),
        ("result", initResultPayload)]))) ∧
    PyVal.int 999 ≠ PyVal.none :=
  ⟨rfl, rfl, by simp⟩

/-- C6 (amended): every response produced by `_process_request` echoes
the request's id verbatim; when the request dict carries no `id` field,
that id is the dataclass default `999` — not null. -/
theorem c6_response_id_echo (S : McpServer) (req : McpRequest) (tn : String)
    (S2 : McpServer) (resp : McpResponse) (kvs : List (String × PyVal)) (req2 : McpRequest)
    (h1 : S.processRequest req tn = (S2, .ok resp))
    (h2 : McpRequest.fromDict (.dict kvs) = .ok req2) :
    resp.id = req.id ∧ req2.id = (kvs.lookup "id").getD (.int 999) :=
  ⟨processRequest_ok_id S req tn S2 resp h1, fromDict_ok_id kvs req2 h2⟩

/-- C6 witness: a concrete `initialize` round trip (id present and
echoed) together with an id-less request dict defaulting to `999`. -/
theorem c6_response_id_echo_witness :
    ({ jsonrpc := PyVal.str "2.0", id := PyVal.int 41,
       result := initResultPayload : McpResponse }).id =
      ({ jsonrpc := PyVal.str "2.0", method := PyVal.str "initialize",
         id := PyVal.int 41, params := PyVal.none : McpRequest }).id ∧
    ({ jsonrpc := PyVal.str "2.0", method := PyVal.str "initialize",
       id := PyVal.int 999, params := PyVal.none : McpRequest }).id =
      (([("jsonrpc", PyVal.str "2.0"), ("method", PyVal.str "initialize")] :
        List (String × PyVal)).lookup "id").getD (.int 999) :=
  c6_response_id_echo (mkMcpServer [] [])
    { jsonrpc := .str "2.0", method := .str "initialize", id := .int 41, params := PyVal.none }
    "" { mkMcpServer [] [] with initialized := true }
    { jsonrpc := .str "2.0", id := .int 41, result := initResultPayload }
    [("jsonrpc", .str "2.0"), ("method", .str "initialize")]
    { jsonrpc := .str "2.0", method := .str "initialize", id := .int 999, params := PyVal.none }
    rfl rfl

/-- C9 counterexample: the configuration itself may define an empty-named
toolset, and `McpServer.__init__` keeps it as-is. With a registry of two
tools and a configured empty toolset containing none of them,
`tools/list` on the empty name returns no manifests — not the manifests
of every registered tool, contradicting the claim's "for any toolset
configuration". -/
theorem c9_configured_empty_toolset_shadows_registry :
    ((mkMcpServer [("a", toolA), ("b", toolB)]
        [("", ⟨"", [], Option.none⟩)]).handleListTools
      { jsonrpc := .str "2.0", method := .str "tools/list", id := .int 1,
        params := PyVal.none } "" =
      .ok { jsonrpc := .str "2.0", id := .int 1,
            result := .dict [("tools", .list [])] }) ∧
    (.list [] : PyVal) ≠ .list [toolA.manifest, toolB.manifest] :=
  ⟨rfl, by simp⟩

/-- C9 (amended): whenever the configuration does **not** itself define
an empty-named toolset, the constructed server always has one holding the
entire registry, and `tools/list` on the empty name returns the manifest
of every registered tool, regardless of the named toolsets configured. -/
theorem c9_default_toolset_lists_all_tools (tools : List (String × PyTool))
    (cfg : List (String × Toolset)) (h : cfg.lookup "" = Option.none) :
    (mkMcpServer tools cfg).toolsets.lookup "" =
      Option.some ⟨"", tools, Option.some "Default toolset with all tools"⟩ ∧
    ∀ req : McpRequest, (mkMcpServer tools cfg).handleListTools req "" =
      .ok { jsonrpc := .str "2.0", id := req.id,
            result := .dict [("tools", .list (tools.map (fun kv => kv.2.manifest)))] } := by
  have hl : (mkMcpServer tools cfg).toolsets.lookup "" =
      Option.some ⟨"", tools, Option.some "Default toolset with all tools"⟩ := by
    unfold mkMcpServer
    simp only [h, Option.isSome_none, Bool.false_eq_true, if_false]
    rw [lookup_append_of_none cfg _ "" h]
    rfl
  exact ⟨hl, fun req => by
    simp [McpServer.handleListTools, hl, Toolset.getMcpToolsList]⟩

/-- C9 witness: two registered tools, one named toolset configured. -/
theorem c9_default_toolset_lists_all_tools_witness :
    (mkMcpServer [("a", toolA), ("b", toolB)]
        [("justA", ⟨"justA", [("a", toolA)], Option.none⟩)]).handleListTools
      { jsonrpc := .str "2.0", method := .str "tools/list", id := .int 3,
        params := PyVal.none } "" =
      .ok { jsonrpc := .str "2.0", id := .int 3,
            result := .dict [("tools", .list [toolA.manifest, toolB.manifest])] } :=
  (c9_default_toolset_lists_all_tools [("a", toolA), ("b", toolB)]
    [("justA", ⟨"justA", [("a", toolA)], Option.none⟩)] rfl).2
    { jsonrpc := .str "2.0", method := .str "tools/list", id := .int 3,
      params := PyVal.none }

/-! ## Theorems about the invocation middleware -/

/-- The attach loop is the identity on the tool table when no config item
has a truthy `pre_hook` or `datasource_ids`, for any hook cell value. -/
theorem attachStep_foldlM_no_match (env : String → HookFn)
    (descs : List String → PyVal → PyVal) (cell : Bool)
    (cfgs : List (String × SrvToolConfig)) (tools : List (String × SrvTool))
    (h : ∀ kv ∈ cfgs, optTruthy kv.2.pre_hook = false ∧ optTruthy kv.2.datasource_ids = false) :
    cfgs.foldlM (attachStep env descs cell) tools = .ok tools := by
  induction cfgs generalizing tools with
  | nil => rfl
  | cons kv rest ih =>
    have h1 := h kv (by simp)
    have hstep : attachStep env descs cell tools kv = .ok tools := by
      unfold attachStep
      simp [h1.1, h1.2]
    simp only [List.foldlM]
    rw [hstep]
    show (Except.ok tools >>= fun s => rest.foldlM (attachStep env descs cell) s) = .ok tools
    rw [show (Except.ok tools >>= fun s => rest.foldlM (attachStep env descs cell) s) =
      rest.foldlM (attachStep env descs cell) tools from rfl]
    exact ih tools (fun kv hkv => h kv (by simp [hkv]))

/-- C5 counterexample: one tool configured with a pre-hook. After one
attach run the hook runs once per call; after running the attach step a
second time, the already-wrapped invoke is wrapped again and the hook runs
twice per call — the claimed idempotence fails. -/
theorem c5_second_attach_runs_hook_twice :
    invokeAfter (attachPreHook hookEnvDemo noDescs hookedCfg [("t", plainSrvTool)])
      "t" (.dict []) = Option.some (["mod:my_hook"], .ok (.list [])) ∧
    invokeAfter (attachTwice hookEnvDemo noDescs hookedCfg [("t", plainSrvTool)])
      "t" (.dict []) =
      Option.some (["mod:my_hook", "mod:my_hook"], .ok (.list [])) ∧
    (["mod:my_hook", "mod:my_hook"] : Trace) ≠ ["mod:my_hook"] :=
  ⟨rfl, rfl, by simp⟩

/-- C5 (amended): the wrap preserves the original semantics under a
no-hook/no-post-processing configuration (the attach step leaves every
tool unchanged), but it is **not** idempotent: each attach run wraps the
current invoke, so after a second run a configured pre-hook executes twice
per call (its trace appears twice before the original invoke's trace). -/
theorem c5_wrap_transparent_but_not_idempotent :
    (∀ (env : String → HookFn) (descs : List String → PyVal → PyVal)
       (cfgs : List (String × SrvToolConfig)) (tools : List (String × SrvTool)),
      (∀ kv ∈ cfgs, optTruthy kv.2.pre_hook = false ∧
        optTruthy kv.2.datasource_ids = false) →
      attachPreHook env descs cfgs tools = .ok tools) ∧
    (∀ (env : String → HookFn) (descs : List String → PyVal → PyVal)
       (p tname : String) (f : InvokeFn) (hk : HookFn) (a : PyVal)
       (trh trf : Trace) (r : PyVal),
      p ≠ "" → env p = hk → hk a = (trh, .ok ()) → f a = (trf, .ok r) →
      invokeAfter (attachPreHook env descs [(tname, ⟨Option.some p, Option.none⟩)]
          [(tname, ⟨f⟩)]) tname a = Option.some (trh ++ trf, .ok r) ∧
      invokeAfter (attachTwice env descs [(tname, ⟨Option.some p, Option.none⟩)]
          [(tname, ⟨f⟩)]) tname a =
        Option.some (trh ++ (trh ++ trf), .ok r)) := by
  constructor
  · intro env descs cfgs tools h
    exact attachStep_foldlM_no_match env descs (finalHookTruthy cfgs) cfgs tools h
  · intro env descs p tname f hk a trh trf r hp henv hh hf
    have hcell : finalHookTruthy [(tname, ⟨Option.some p, Option.none⟩)] = true := by
      simp [finalHookTruthy, optTruthy, hp]
    have h1 : attachPreHook env descs [(tname, ⟨Option.some p, Option.none⟩)]
        [(tname, ⟨f⟩)] =
        .ok [(tname, ⟨wrappedInvoke true (Option.some hk) Option.none descs f⟩)] := by
      simp [attachPreHook, hcell, attachStep, optTruthy, hp, henv, List.lookup,
        updateAssoc, List.foldlM]
    have h2 : attachPreHook env descs [(tname, ⟨Option.some p, Option.none⟩)]
        [(tname, ⟨wrappedInvoke true (Option.some hk) Option.none descs f⟩)] =
        .ok [(tname, ⟨wrappedInvoke true (Option.some hk) Option.none descs
          (wrappedInvoke true (Option.some hk) Option.none descs f)⟩)] := by
      simp [attachPreHook, hcell, attachStep, optTruthy, hp, henv, List.lookup,
        updateAssoc, List.foldlM]
    constructor
    · simp [invokeAfter, h1, List.lookup, wrappedInvoke, runHook, hh, hf]
    · simp [invokeAfter, attachTwice, h1, h2, List.lookup, wrappedInvoke,
        runHook, hh, hf]

/-- C5 witness: the no-hook configuration is untouched, and the hooked
single-tool configuration at concrete values. -/
theorem c5_wrap_transparent_but_not_idempotent_witness :
    (attachPreHook hookEnvDemo noDescs [("t", ⟨Option.none, Option.none⟩)]
      [("t", plainSrvTool)] = .ok [("t", plainSrvTool)]) ∧
    invokeAfter (attachTwice hookEnvDemo noDescs hookedCfg [("t", plainSrvTool)])
      "t" (.dict []) =
      Option.some (["mod:my_hook"] ++ (["mod:my_hook"] ++ []), .ok (.list [])) :=
  ⟨c5_wrap_transparent_but_not_idempotent.1 hookEnvDemo noDescs
      [("t", ⟨Option.none, Option.none⟩)] [("t", plainSrvTool)]
      (by intro kv hkv; simp at hkv; simp [hkv, optTruthy]),
   (c5_wrap_transparent_but_not_idempotent.2 hookEnvDemo noDescs
      "mod:my_hook" "t" plainSrvTool.invoke (hookEnvDemo "mod:my_hook")
      (.dict []) ["mod:my_hook"] [] (.list [])
      (by decide) rfl rfl rfl).2⟩

end McpToolbox
